import Mathlib

/-!
Shallow embedding of the travel-guide notebook
(`src/project1/travel-guide-notebook.ipynb`).

The notebook defines three routines:

* `scrape_destination_info` — partitions a fetched wiki page into five
  text buckets (`overview`, `attractions`, `transportation`, `food`,
  `tips`) by scanning `h2`/`h3` headings and matching keywords against
  their lowercased text;
* `generate_guide` — decodes the model completion as JSON and checks the
  five required keys;
* `format_guide` — renders the guide mapping as Markdown with a
  shape-dispatch (list / dict / scalar) per key.

Conventions of the embedding:

* Python values decoded from JSON are the inductive `Json`
  (numbers are modelled as integers; none of the notebook's branches
  inspects numeric values).
* Python dicts are association lists with distinct keys, in insertion
  order; `d[k]` is `alookup`, raising lookups return `Option`.
* Code that can raise an exception returns `Option` (`none` = the
  exception propagates); code that cannot raise in any branch is proved
  total, not assumed so.
* BeautifulSoup's parsed content container is a flat list of sibling
  `Node`s: `para` = a `<p>` element carrying its stripped text,
  `heading` = an `<h2>`/`<h3>` element carrying its text, `other` = any
  other element (skipped by every walk in the notebook).
* Python string formatting `f"{x}"` is `pyStr` (`str(x)`), which for
  lists and dicts produces the `repr`-style rendering `pyRepr`, using
  single quotes (the notebook's strings contain no quote characters).
* Python's `.lower()` is `strLower` (ASCII case mapping, which agrees
  with Python on the ASCII heading texts involved), and `a in b` on
  strings is the substring test `strContains`.
-/

/-- A decoded JSON value as produced by `json.loads`. -/
inductive Json where
  | str : String → Json
  | num : Int → Json
  | bool : Bool → Json
  | null : Json
  | list : List Json → Json
  | obj : List (String × Json) → Json

mutual
/-- Python `repr` of a decoded JSON value (single-quote style). -/
def pyRepr : Json → String
  | Json.str s => "'" ++ s ++ "'"
  | Json.num n => toString n
  | Json.bool b => if b then "True" else "False"
  | Json.null => "None"
  | Json.list xs => "[" ++ pyReprElems xs ++ "]"
  | Json.obj kvs => "\x7b" ++ pyReprEntries kvs ++ "\x7d"

/-- Comma-separated `repr`s of list elements. -/
def pyReprElems : List Json → String
  | [] => ""
  | [x] => pyRepr x
  | x :: y :: rest => pyRepr x ++ ", " ++ pyReprElems (y :: rest)

/-- Comma-separated `'key': repr(value)` renderings of dict entries. -/
def pyReprEntries : List (String × Json) → String
  | [] => ""
  | [(k, v)] => "'" ++ k ++ "': " ++ pyRepr v
  | (k, v) :: e :: rest => "'" ++ k ++ "': " ++ pyRepr v ++ ", " ++ pyReprEntries (e :: rest)
end

/-- Python `str` of a decoded JSON value, as used by `f"{x}"`:
strings print verbatim, everything else prints as its `repr`. -/
def pyStr : Json → String
  | Json.str s => s
  | v => pyRepr v

/-- Dict lookup on an association list (`d.get(k)` view of `d[k]`). -/
def alookup {α : Type} : List (String × α) → String → Option α
  | [], _ => none
  | (k', v) :: rest, k => if k' = k then some v else alookup rest k

/-- Python subscript `x[k]` with a string key: succeeds only on a dict
that has the key; on any other value (or a dict missing the key) the
`TypeError`/`KeyError` is modelled as `none`. -/
def pyGetItem (x : Json) (k : String) : Option Json :=
  match x with
  | Json.obj kvs => alookup kvs k
  | _ => none

/-- ASCII lowercase of every character, Python's `.lower()` on the ASCII
heading texts the notebook deals with. -/
def strLower (s : String) : String := String.mk (s.data.map Char.toLower)

/-- Whether the needle is a lead segment of the haystack character list. -/
def charsLead : List Char → List Char → Bool
  | [], _ => true
  | _ :: _, [] => false
  | a :: as, b :: bs => a == b && charsLead as bs

/-- Whether the needle occurs somewhere in the haystack character list. -/
def charsWithin (n : List Char) : List Char → Bool
  | [] => n.isEmpty
  | b :: bs => charsLead n (b :: bs) || charsWithin n bs

/-- Python's substring test `needle in haystack`. -/
def strContains (haystack needle : String) : Bool :=
  charsWithin needle.data haystack.data

/-- An element of the flat content container: a paragraph with its
stripped text, an `h2`/`h3` heading with its text, or any other element
(which every walk in the notebook skips or stops at). -/
inductive Node where
  | para : String → Node
  | heading : String → Node
  | other : Node

/-- The five-bucket `info` dict of `scrape_destination_info`. -/
abbrev Info := List (String × String)

/-- `info` as initialised: five keys, each mapped to the empty string. -/
def emptyInfo : Info :=
  [("overview", ""), ("attractions", ""), ("transportation", ""), ("food", ""), ("tips", "")]

/-- Assignment `d[k] = v` on an association list (to an existing key). -/
def setVal : Info → String → String → Info
  | [], _, _ => []
  | (k1, v1) :: rest, k, v =>
    if k1 = k then (k1, v) :: setVal rest k v else (k1, v1) :: setVal rest k v

/-- Augmented assignment `d[k] += v` on an association list (append to an existing key). -/
def appendTo : Info → String → String → Info
  | [], _, _ => []
  | (k1, v1) :: rest, k, v =>
    if k1 = k then (k1, v1 ++ v) :: appendTo rest k v else (k1, v1) :: appendTo rest k v

/-- The run of paragraph texts collected by
`while current and current.name == 'p'` — consecutive `<p>` siblings,
stopping at the first non-paragraph node. -/
def paraRun : List Node → List String
  | Node.para t :: rest => t :: paraRun rest
  | _ => []

/-- The intro paragraphs: `content.find('p')` locates the first
paragraph anywhere in the container, then the sibling walk collects the
consecutive paragraph run starting there. -/
def introParas : List Node → List String
  | [] => []
  | Node.para t :: rest => t :: paraRun rest
  | _ :: rest => introParas rest

/-- The sibling walk below a heading: paragraph texts of following
siblings up to (not including) the next `h2`/`h3`, other elements
silently skipped. -/
def parasUntilHeading : List Node → List String
  | [] => []
  | Node.heading _ :: _ => []
  | Node.para t :: rest => t :: parasUntilHeading rest
  | Node.other :: rest => parasUntilHeading rest

/-- The `if`/`elif` keyword chain mapping a heading's lowercased text to
a section name; `none` when no keyword matches. -/
def matchSection (headingText : String) : Option String :=
  if strContains (strLower headingText) "see" || strContains (strLower headingText) "sight" then
    some "attractions"
  else if strContains (strLower headingText) "get around"
      || strContains (strLower headingText) "transport" then
    some "transportation"
  else if strContains (strLower headingText) "eat"
      || strContains (strLower headingText) "food" then
    some "food"
  else if strContains (strLower headingText) "understand"
      || strContains (strLower headingText) "tips" then
    some "tips"
  else none

/-- The update `info[current_section] += text` guarded by `if current_section:`. -/
def appendCurrent (info : Info) (cs : Option String) (v : String) : Info :=
  match cs with
  | some s => appendTo info s v
  | none => info

/-- The heading loop of `scrape_destination_info`: walk the container,
and at each `h2`/`h3` first update the current-section pointer by
keyword matching (an unmatched heading leaves it unchanged), then, if a
section is current, append the space-joined paragraph texts standing
between this heading and the next one. -/
def scanHeadings : List Node → Option String → Info → Info
  | [], _, info => info
  | Node.para _ :: rest, cs, info => scanHeadings rest cs info
  | Node.other :: rest, cs, info => scanHeadings rest cs info
  | Node.heading ht :: rest, cs, info =>
    match matchSection ht with
    | some s =>
      scanHeadings rest (some s)
        (appendCurrent info (some s) (String.intercalate " " (parasUntilHeading rest)))
    | none =>
      scanHeadings rest cs
        (appendCurrent info cs (String.intercalate " " (parasUntilHeading rest)))

/-- The function `scrape_destination_info`, given the located content container
(`none` models a failed fetch or an absent `mw-content-text` div, where
the function returns `None`): set the overview to the space-joined intro
paragraph run, then run the heading scan over the whole container. -/
def scrape_destination_info (content : Option (List Node)) : Option Info :=
  match content with
  | none => none
  | some nodes =>
    some (scanHeadings nodes none
      (setVal emptyInfo "overview" (String.intercalate " " (introParas nodes))))

/-- The guide mapping decoded from the model response. -/
abbrev GuideData := List (String × Json)

/-- The Overview block of `format_guide`: header plus the value printed
verbatim; absent key contributes nothing. No branch can raise. -/
def sectionOverview (gd : GuideData) : Option String :=
  match alookup gd "overview" with
  | none => some ""
  | some v => some ("## Overview\n\n" ++ pyStr v ++ "\n\n")

/-- The attraction loop body: `### {attraction['name']}` then
`{attraction['description']}` — both subscripts can raise. -/
def renderAttractionItems : List Json → Option String
  | [] => some ""
  | a :: rest =>
    match pyGetItem a "name", pyGetItem a "description" with
    | some nm, some ds =>
      (renderAttractionItems rest).map
        (fun tail => "### " ++ pyStr nm ++ "\n" ++ pyStr ds ++ "\n\n" ++ tail)
    | _, _ => none

/-- The Must-See Attractions block: a list value is rendered per
element through the raising subscripts; any other value is printed
verbatim below the header. -/
def sectionAttractions (gd : GuideData) : Option String :=
  match alookup gd "attractions" with
  | none => some ""
  | some (Json.list items) =>
    (renderAttractionItems items).map
      (fun body => "## Must-See Attractions\n\n" ++ body)
  | some v => some ("## Must-See Attractions\n\n" ++ pyStr v ++ "\n\n")

/-- The dict loop of the Getting Around block:
`### {method}` then `{info}` per entry. -/
def renderTransportEntries : List (String × Json) → String
  | [] => ""
  | (k, v) :: rest => "### " ++ k ++ "\n" ++ pyStr v ++ "\n\n" ++ renderTransportEntries rest

/-- The Getting Around block: a dict value gets per-entry labelled
sub-blocks; every other value (lists included) is printed verbatim. -/
def sectionTransportation (gd : GuideData) : Option String :=
  match alookup gd "transportation" with
  | none => some ""
  | some (Json.obj kvs) => some ("## Getting Around\n\n" ++ renderTransportEntries kvs)
  | some v => some ("## Getting Around\n\n" ++ pyStr v ++ "\n\n")

/-- The dict loop of the Food & Dining block:
`### {title}` then `{desc}` per entry. -/
def renderFoodEntries : List (String × Json) → String
  | [] => ""
  | (k, v) :: rest => "### " ++ k ++ "\n" ++ pyStr v ++ "\n\n" ++ renderFoodEntries rest

/-- One element of a Food & Dining list value: a dict becomes labelled
sub-blocks, anything else a bullet line. -/
def renderFoodItem : Json → String
  | Json.obj kvs => renderFoodEntries kvs
  | v => "- " ++ pyStr v ++ "\n"

/-- The Food & Dining block. -/
def sectionFood (gd : GuideData) : Option String :=
  match alookup gd "food_and_dining" with
  | none => some ""
  | some (Json.list items) =>
    some ("## Food & Dining\n\n" ++ String.join (items.map renderFoodItem))
  | some v => some ("## Food & Dining\n\n" ++ pyStr v ++ "\n\n")

/-- The Practical Tips block: a list value becomes bullet lines, any
other value is printed verbatim. -/
def sectionTips (gd : GuideData) : Option String :=
  match alookup gd "tips" with
  | none => some ""
  | some (Json.list items) =>
    some ("## Practical Tips\n\n" ++ String.join (items.map (fun t => "- " ++ pyStr t ++ "\n")))
  | some v => some ("## Practical Tips\n\n" ++ pyStr v ++ "\n\n")

/-- The function `format_guide`: the title line followed by the five key blocks in
fixed order; `none` models an exception escaping the function. -/
def format_guide (gd : GuideData) (destination : String) : Option String := do
  let ov ← sectionOverview gd
  let at1 ← sectionAttractions gd
  let tr ← sectionTransportation gd
  let fo ← sectionFood gd
  let tp ← sectionTips gd
  pure ("# Travel Guide: " ++ destination ++ "\n\n" ++ ov ++ at1 ++ tr ++ fo ++ tp)

/-- Python `==` between a decoded JSON value and a string literal. -/
def jsonEqStr (j : Json) (k : String) : Bool :=
  match j with
  | Json.str s => s = k
  | _ => false

/-- Python `k in result` on a decoded JSON value: key test on a dict,
membership on a list, substring test on a string; on any other value
the `TypeError` is modelled as `none`. -/
def pyContains (result : Json) (k : String) : Option Bool :=
  match result with
  | Json.obj kvs => some (alookup kvs k).isSome
  | Json.list xs => some (xs.any (fun j => jsonEqStr j k))
  | Json.str s => some (strContains s k)
  | _ => none

/-- The five keys `generate_guide` requires. -/
def requiredKeys : List String :=
  ["overview", "attractions", "transportation", "food_and_dining", "tips"]

/-- The comprehension `[key for key in required_keys if key not in result]`;
`none` models a `TypeError` raised by a membership test. -/
def missingKeys (result : Json) : List String → Option (List String)
  | [] => some []
  | k :: rest =>
    match pyContains result k with
    | none => none
    | some b =>
      match missingKeys result rest with
      | none => none
      | some ms => some (if b then ms else k :: ms)

/-- The function `generate_guide` after the model call, as a function of the decoded
completion content (`none` models `json.JSONDecodeError`): on a decode
failure return `None`; otherwise collect the missing required keys (a
`TypeError` there lands in the outer `except`, also returning `None`)
and return `None` unless all five are present. -/
def generate_guide (decoded : Option Json) : Option Json :=
  match decoded with
  | none => none
  | some result =>
    match missingKeys result requiredKeys with
    | none => none
    | some ms => if ms.isEmpty then some result else none

/-- Whether a node is a paragraph. -/
def isPara : Node → Bool
  | Node.para _ => true
  | _ => false

/-- The text of a paragraph node (and `""` on the others). -/
def paraText : Node → String
  | Node.para t => t
  | _ => ""

/-- Modelled from the words of claim C3: the texts of every paragraph
node appearing before the first heading of the content container,
whether or not non-paragraph elements interrupt them. -/
def preHeadingParas : List Node → List String
  | [] => []
  | Node.heading _ :: _ => []
  | Node.para t :: rest => t :: preHeadingParas rest
  | Node.other :: rest => preHeadingParas rest

/-- Modelled from the amended claim C3: the first contiguous run of
paragraph siblings, starting at the first paragraph node of the
container wherever it stands, and stopping at the first non-paragraph
sibling. -/
def firstParaRun (nodes : List Node) : List String :=
  (((nodes.dropWhile (fun n => !isPara n)).takeWhile isPara).map paraText)

/-- An attractions-list element on which both subscripts of the
rendering loop succeed: a dict carrying the `name` and `description`
keys. -/
def goodAttraction (x : Json) : Bool :=
  (pyGetItem x "name").isSome && (pyGetItem x "description").isSome

/-- The `attractions` value, when it is a list, carries only elements
the rendering loop can subscript. -/
def attractionsRenderable (gd : GuideData) : Bool :=
  match alookup gd "attractions" with
  | some (Json.list xs) => xs.all goodAttraction
  | _ => true

/-! ### Helper lemmas -/

theorem strAppendAssoc (a b c : String) : a ++ b ++ c = a ++ (b ++ c) := by
  apply String.ext
  simp [String.data_append]

theorem alookup_appendTo_self (m : Info) (k v : String) :
    alookup (appendTo m k v) k = (alookup m k).map (fun o => o ++ v) := by
  induction m with
  | nil => rfl
  | cons p rest ih =>
    obtain ⟨k1, v1⟩ := p
    by_cases h : k1 = k
    · subst h; simp [appendTo, alookup]
    · simp [appendTo, alookup, h, ih]

theorem alookup_appendTo_of_ne (m : Info) (k v q : String) (h : q ≠ k) :
    alookup (appendTo m k v) q = alookup m q := by
  induction m with
  | nil => rfl
  | cons p rest ih =>
    obtain ⟨k1, v1⟩ := p
    by_cases h1 : k1 = k
    · subst h1
      simp [appendTo, alookup, Ne.symm h, ih]
    · by_cases h2 : k1 = q <;> simp [appendTo, alookup, h1, h2, h, ih]

theorem alookup_setVal_of_ne (m : Info) (k v q : String) (h : q ≠ k) :
    alookup (setVal m k v) q = alookup m q := by
  induction m with
  | nil => rfl
  | cons p rest ih =>
    obtain ⟨k1, v1⟩ := p
    by_cases h1 : k1 = k
    · subst h1
      simp [setVal, alookup, Ne.symm h, ih]
    · by_cases h2 : k1 = q <;> simp [setVal, alookup, h1, h2, h, ih]

theorem appendTo_keysEq (m : Info) (k v : String) :
    (appendTo m k v).map Prod.fst = m.map Prod.fst := by
  induction m with
  | nil => rfl
  | cons p rest ih =>
    obtain ⟨k1, v1⟩ := p
    by_cases h : k1 = k <;> simp [appendTo, h, ih]

theorem setVal_keysEq (m : Info) (k v : String) :
    (setVal m k v).map Prod.fst = m.map Prod.fst := by
  induction m with
  | nil => rfl
  | cons p rest ih =>
    obtain ⟨k1, v1⟩ := p
    by_cases h : k1 = k <;> simp [setVal, h, ih]

theorem appendCurrent_keysEq (info : Info) (cs : Option String) (v : String) :
    (appendCurrent info cs v).map Prod.fst = info.map Prod.fst := by
  cases cs with
  | none => rfl
  | some s => exact appendTo_keysEq info s v

theorem scanHeadings_keysEq (nodes : List Node) :
    ∀ cs info, (scanHeadings nodes cs info).map Prod.fst = info.map Prod.fst := by
  induction nodes with
  | nil => intro cs info; rfl
  | cons n rest ih =>
    intro cs info
    cases n with
    | para t => exact ih cs info
    | other => exact ih cs info
    | heading ht =>
      cases h : matchSection ht with
      | some s =>
        simp only [scanHeadings, h]
        rw [ih, appendCurrent_keysEq]
      | none =>
        simp only [scanHeadings, h]
        rw [ih, appendCurrent_keysEq]

theorem matchSection_mem (ht s : String) (h : matchSection ht = some s) :
    s = "attractions" ∨ s = "transportation" ∨ s = "food" ∨ s = "tips" := by
  unfold matchSection at h
  split at h
  · exact Or.inl (Option.some.inj h).symm
  · split at h
    · exact Or.inr (Or.inl (Option.some.inj h).symm)
    · split at h
      · exact Or.inr (Or.inr (Or.inl (Option.some.inj h).symm))
      · split at h
        · exact Or.inr (Or.inr (Or.inr (Option.some.inj h).symm))
        · exact absurd h (by simp)

theorem scanHeadings_overview_eq (nodes : List Node) :
    ∀ cs info, (∀ s, cs = some s → s ≠ "overview") →
      alookup (scanHeadings nodes cs info) "overview" = alookup info "overview" := by
  induction nodes with
  | nil => intro cs info _; rfl
  | cons n rest ih =>
    intro cs info hcs
    cases n with
    | para t => exact ih cs info hcs
    | other => exact ih cs info hcs
    | heading ht =>
      cases h : matchSection ht with
      | some s =>
        have hs : s ≠ "overview" := by
          rcases matchSection_mem ht s h with h1 | h1 | h1 | h1 <;> simp [h1]
        simp only [scanHeadings, h]
        rw [ih _ _ (fun s1 hs1 => by cases hs1; exact hs)]
        simp only [appendCurrent]
        exact alookup_appendTo_of_ne _ _ _ _ (fun hq => hs hq.symm)
      | none =>
        simp only [scanHeadings, h]
        rw [ih _ _ hcs]
        cases hc : cs with
        | none => rfl
        | some s =>
          simp only [appendCurrent]
          exact alookup_appendTo_of_ne _ _ _ _ (fun hq => hcs s hc hq.symm)

theorem sectionOverview_total (gd : GuideData) : ∃ x, sectionOverview gd = some x := by
  unfold sectionOverview
  cases alookup gd "overview" <;> exact ⟨_, rfl⟩

theorem sectionTransportation_total (gd : GuideData) :
    ∃ x, sectionTransportation gd = some x := by
  unfold sectionTransportation
  cases alookup gd "transportation" with
  | none => exact ⟨_, rfl⟩
  | some v => cases v <;> exact ⟨_, rfl⟩

theorem sectionFood_total (gd : GuideData) : ∃ x, sectionFood gd = some x := by
  unfold sectionFood
  cases alookup gd "food_and_dining" with
  | none => exact ⟨_, rfl⟩
  | some v => cases v <;> exact ⟨_, rfl⟩

theorem sectionTips_total (gd : GuideData) : ∃ x, sectionTips gd = some x := by
  unfold sectionTips
  cases alookup gd "tips" with
  | none => exact ⟨_, rfl⟩
  | some v => cases v <;> exact ⟨_, rfl⟩

theorem renderAttractionItems_total (xs : List Json) (h : xs.all goodAttraction = true) :
    ∃ s, renderAttractionItems xs = some s := by
  induction xs with
  | nil => exact ⟨"", rfl⟩
  | cons a rest ih =>
    rw [List.all_cons, Bool.and_eq_true] at h
    obtain ⟨ha, hrest⟩ := h
    obtain ⟨tail, htail⟩ := ih hrest
    rw [goodAttraction, Bool.and_eq_true, Option.isSome_iff_exists, Option.isSome_iff_exists] at ha
    obtain ⟨⟨nm, hnm⟩, ds, hds⟩ := ha
    refine ⟨"### " ++ pyStr nm ++ "\n" ++ pyStr ds ++ "\n\n" ++ tail, ?_⟩
    simp [renderAttractionItems, hnm, hds, htail]

theorem sectionAttractions_total_of_renderable (gd : GuideData)
    (h : attractionsRenderable gd = true) : ∃ x, sectionAttractions gd = some x := by
  unfold sectionAttractions
  unfold attractionsRenderable at h
  cases hl : alookup gd "attractions" with
  | none => exact ⟨_, rfl⟩
  | some v =>
    rw [hl] at h
    cases v with
    | list xs =>
      dsimp only at h ⊢
      obtain ⟨s, hs⟩ := renderAttractionItems_total xs h
      rw [hs]
      exact ⟨_, rfl⟩
    | str s => exact ⟨_, rfl⟩
    | num n => exact ⟨_, rfl⟩
    | bool b => exact ⟨_, rfl⟩
    | null => exact ⟨_, rfl⟩
    | obj kvs => exact ⟨_, rfl⟩

/-- Claim C1 (amended): `format_guide` terminates with a rendered document for
every well-formed JSON shape in the five guide keys, except the one
raising configuration: whenever the `attractions` value, if it is a
list, carries only mappings that have both the `name` and `description`
keys, a document is produced. (The original claim — that it never raises
at all — fails: see the counterexample theorem.) -/
theorem format_guide_total_of_renderable_attractions (gd : GuideData) (d : String)
    (h : attractionsRenderable gd = true) :
    ∃ doc, format_guide gd d = some doc := by
  obtain ⟨x1, h1⟩ := sectionOverview_total gd
  obtain ⟨x2, h2⟩ := sectionAttractions_total_of_renderable gd h
  obtain ⟨x3, h3⟩ := sectionTransportation_total gd
  obtain ⟨x4, h4⟩ := sectionFood_total gd
  obtain ⟨x5, h5⟩ := sectionTips_total gd
  exact ⟨_, by rw [format_guide, h1, h2, h3, h4, h5]; rfl⟩

/-- Witness for C1: on an `attractions` list whose single element is a
mapping with `name` and `description`, `format_guide` returns a
document. -/
theorem format_guide_total_of_renderable_attractions_w :
    ∃ doc,
      format_guide
        [("attractions",
          Json.list [Json.obj [("name", Json.str "Tower"), ("description", Json.str "Tall")]])]
        "X" = some doc :=
  format_guide_total_of_renderable_attractions
    [("attractions",
      Json.list [Json.obj [("name", Json.str "Tower"), ("description", Json.str "Tall")]])]
    "X" (by decide)

/-- Counterexample to C1 as stated: the well-formed JSON value
`["1. Tower"]` (a list of strings) under `attractions` makes
`format_guide` raise a `TypeError` (`attraction['name']` on a string),
modelled as `none` — so the renderer does not return a document for
every well-formed JSON value. -/
theorem format_guide_raises_on_string_attraction_item :
    format_guide [("attractions", Json.list [Json.str "1. Tower"])] "X" = none := by
  rfl

/-- Counterexample to C2 as stated: for the `attractions` value
`[{"mode": "Bus", "details": "Cheap"}]` the rendering loop's subscript
`attraction['name']` raises a `KeyError` — modelled as `none` — instead
of falling back to the raw textual representation of the mapping as
bullet text. No document at all is produced. -/
theorem attractions_unnamed_mapping_raises :
    format_guide
      [("attractions", Json.list [Json.obj [("mode", Json.str "Bus"), ("details", Json.str "Cheap")]])]
      "Paris" = none := by
  rfl

/-- Claim C2 (amended): the `attractions` value
`[{"name": "Tower", "description": "Tall"}]` renders as the sub-heading
`Tower` followed by the paragraph `Tall`; the value
`[{"mode": "Bus", "details": "Cheap"}]` (no `name`/`description` keys)
makes `format_guide` raise a `KeyError` (modelled as `none`), so no
document — and in particular no bullet-text fallback — is produced. -/
theorem attractions_shape_dispatch (d : String) :
    format_guide
        [("attractions",
          Json.list [Json.obj [("name", Json.str "Tower"), ("description", Json.str "Tall")]])] d
      = some ("# Travel Guide: " ++ d ++ "\n\n## Must-See Attractions\n\n### Tower\nTall\n\n")
    ∧ format_guide
        [("attractions",
          Json.list [Json.obj [("mode", Json.str "Bus"), ("details", Json.str "Cheap")]])] d
      = none := by
  constructor
  · show (some ("# Travel Guide: " ++ d ++ "\n\n" ++ "" ++
      ("## Must-See Attractions\n\n" ++ ("### Tower\nTall\n\n" ++ "")) ++ "" ++ "" ++ "") : Option String) = _
    simp [strAppendAssoc, String.append_empty, String.empty_append]
  · rfl

/-- Claim C6: when the `tips` key is absent the Practical Tips block
contributes nothing: its section renders as the empty string (so the
"## Practical Tips" header, which only that block emits, never reaches
the document), the whole document equals the pipeline of the remaining
four blocks, and in general every guide key absent from the mapping
makes its block render as the empty string. -/
theorem absent_tips_key_emits_no_section (gd : GuideData) (d : String)
    (h : alookup gd "tips" = none) :
    sectionTips gd = some "" ∧
    format_guide gd d = (do
      let ov ← sectionOverview gd
      let a1 ← sectionAttractions gd
      let tr ← sectionTransportation gd
      let fo ← sectionFood gd
      pure ("# Travel Guide: " ++ d ++ "\n\n" ++ ov ++ a1 ++ tr ++ fo)) ∧
    (∀ gd2 : GuideData,
      (alookup gd2 "overview" = none → sectionOverview gd2 = some "") ∧
      (alookup gd2 "attractions" = none → sectionAttractions gd2 = some "") ∧
      (alookup gd2 "transportation" = none → sectionTransportation gd2 = some "") ∧
      (alookup gd2 "food_and_dining" = none → sectionFood gd2 = some "")) := by
  have htips : sectionTips gd = some "" := by simp [sectionTips, h]
  refine ⟨htips, ?_, ?_⟩
  · simp only [format_guide, htips]
    cases sectionOverview gd <;> cases sectionAttractions gd <;>
      cases sectionTransportation gd <;> cases sectionFood gd <;>
      simp [String.append_empty]
  · intro gd2
    refine ⟨?_, ?_, ?_, ?_⟩ <;> intro h2 <;>
      simp [sectionOverview, sectionAttractions, sectionTransportation, sectionFood, h2]

/-- Witness for C6 at a concrete guide mapping missing `tips`. -/
theorem absent_tips_key_emits_no_section_w :
    sectionTips [("overview", Json.str "Hi")] = some "" :=
  (absent_tips_key_emits_no_section [("overview", Json.str "Hi")] "X" rfl).1

/-- Claim C8: when all five guide values are plain strings, `format_guide`
emits the title line and then the five section headers in fixed order —
Overview, Must-See Attractions, Getting Around, Food & Dining,
Practical Tips — each followed by the key's literal string value. -/
theorem format_guide_string_values_in_order (gd : GuideData) (d o a t f tp : String)
    (ho : alookup gd "overview" = some (Json.str o))
    (ha : alookup gd "attractions" = some (Json.str a))
    (ht : alookup gd "transportation" = some (Json.str t))
    (hf : alookup gd "food_and_dining" = some (Json.str f))
    (hp : alookup gd "tips" = some (Json.str tp)) :
    format_guide gd d =
      some ("# Travel Guide: " ++ d ++ "\n\n"
        ++ ("## Overview\n\n" ++ o ++ "\n\n")
        ++ ("## Must-See Attractions\n\n" ++ a ++ "\n\n")
        ++ ("## Getting Around\n\n" ++ t ++ "\n\n")
        ++ ("## Food & Dining\n\n" ++ f ++ "\n\n")
        ++ ("## Practical Tips\n\n" ++ tp ++ "\n\n")) := by
  simp [format_guide, sectionOverview, sectionAttractions, sectionTransportation, sectionFood,
    sectionTips, ho, ha, ht, hf, hp, pyStr, strAppendAssoc]

/-- Witness for C8: the end-to-end scenario's stub guide for
destination "X". -/
theorem format_guide_string_values_in_order_w :
    format_guide
      [("overview", Json.str "X is great."), ("attractions", Json.str "1. Tower"),
       ("transportation", Json.str "Metro"), ("food_and_dining", Json.str "Cafes"),
       ("tips", Json.str "Be safe")] "X" =
      some ("# Travel Guide: " ++ "X" ++ "\n\n"
        ++ ("## Overview\n\n" ++ "X is great." ++ "\n\n")
        ++ ("## Must-See Attractions\n\n" ++ "1. Tower" ++ "\n\n")
        ++ ("## Getting Around\n\n" ++ "Metro" ++ "\n\n")
        ++ ("## Food & Dining\n\n" ++ "Cafes" ++ "\n\n")
        ++ ("## Practical Tips\n\n" ++ "Be safe" ++ "\n\n")) :=
  format_guide_string_values_in_order _ "X" "X is great." "1. Tower" "Metro" "Cafes" "Be safe"
    rfl rfl rfl rfl rfl

/-- Claim C9: a list under `transportation` is rendered as the raw textual
representation of the whole list in one paragraph under the Getting
Around header — no per-element rendering — and the transportation block
returns a rendering for every value of every type (only dict values get
per-entry labelled sub-blocks). -/
theorem transportation_list_rendered_raw (gd : GuideData) (xs : List Json)
    (h : alookup gd "transportation" = some (Json.list xs)) :
    sectionTransportation gd = some ("## Getting Around\n\n" ++ pyStr (Json.list xs) ++ "\n\n")
    ∧ ∀ gd2 : GuideData, (sectionTransportation gd2).isSome := by
  constructor
  · simp [sectionTransportation, h]
  · intro gd2
    obtain ⟨x, hx⟩ := sectionTransportation_total gd2
    rw [hx]
    rfl

/-- Witness for C9: a two-element transportation list is rendered as
its Python `str` — `['Metro', 'Bus']` — in a single paragraph. -/
theorem transportation_list_rendered_raw_w :
    sectionTransportation [("transportation", Json.list [Json.str "Metro", Json.str "Bus"])] =
      some ("## Getting Around\n\n" ++ "['Metro', 'Bus']" ++ "\n\n") := by
  rw [(transportation_list_rendered_raw
    [("transportation", Json.list [Json.str "Metro", Json.str "Bus"])]
    [Json.str "Metro", Json.str "Bus"] rfl).1]
  simp [pyStr, pyRepr, pyReprElems]

theorem intercalate_one (p : String) : String.intercalate " " [p] = p := rfl

theorem intercalate_two (p q : String) : String.intercalate " " [p, q] = p ++ " " ++ q := rfl

theorem matchSection_eat : matchSection "Eat" = some "food" := by decide

theorem alookup_setVal_overview (x : String) :
    alookup (setVal emptyInfo "overview" x) "overview" = some x := by
  simp [setVal, emptyInfo, alookup]

theorem paraRun_eq_takeWhile (l : List Node) :
    paraRun l = (l.takeWhile isPara).map paraText := by
  induction l with
  | nil => rfl
  | cons n rest ih =>
    cases n with
    | para t => simp [paraRun, List.takeWhile_cons, isPara, paraText, ih]
    | heading ht => rfl
    | other => rfl

theorem introParas_eq_firstParaRun (nodes : List Node) :
    introParas nodes = firstParaRun nodes := by
  induction nodes with
  | nil => rfl
  | cons n rest ih =>
    cases n with
    | para t =>
      simp [introParas, firstParaRun, List.dropWhile_cons, isPara, List.takeWhile_cons,
        paraText, paraRun_eq_takeWhile]
    | heading ht =>
      simpa [introParas, firstParaRun, List.dropWhile_cons, isPara] using ih
    | other =>
      simpa [introParas, firstParaRun, List.dropWhile_cons, isPara] using ih

/-- Claim C3 (amended): the Extractor's `overview` value is the space-joined
text of the first contiguous run of paragraph siblings, starting at the
first paragraph node of the container wherever it stands — later
paragraph runs are excluded even when they too appear before the first
heading. (The original claim — every pre-heading paragraph sequence is
collected — fails: see the counterexample theorem.) -/
theorem overview_is_first_paragraph_run (nodes : List Node) :
    (scrape_destination_info (some nodes)).bind (fun i => alookup i "overview") =
      some (String.intercalate " " (firstParaRun nodes)) := by
  simp only [scrape_destination_info, Option.some_bind]
  rw [scanHeadings_overview_eq nodes none _ (fun s hs => nomatch hs),
    alookup_setVal_overview, introParas_eq_firstParaRun]

/-- Counterexample to C3 as stated: on the container
`[p "A", other, p "B", h2 "See"]` both paragraphs stand before the first
heading, so the claim demands the overview `"A B"`; the code stops the
sibling walk at the non-paragraph element and collects only `"A"`. -/
theorem overview_misses_later_pre_heading_paragraphs :
    ((scrape_destination_info
        (some [Node.para "A", Node.other, Node.para "B", Node.heading "See"])).bind
      (fun i => alookup i "overview") = some "A")
    ∧ (scrape_destination_info
        (some [Node.para "A", Node.other, Node.para "B", Node.heading "See"])).bind
        (fun i => alookup i "overview")
      ≠ some (String.intercalate " "
          (preHeadingParas [Node.para "A", Node.other, Node.para "B", Node.heading "See"])) := by
  constructor
  · decide
  · decide

/-- Claim C4: a heading whose lowercased text matches none of the section
keywords leaves the current-section pointer unchanged, so its paragraph
content is appended to the most recently matched section; in
particular, on a page with a matched "Eat" heading followed by such an
unrecognized heading, the latter's paragraphs land in the `food`
bucket. -/
theorem unmatched_heading_falls_through (ht : String) (hm : matchSection ht = none) :
    (∀ rest cs info,
        scanHeadings (Node.heading ht :: rest) cs info =
          scanHeadings rest cs
            (appendCurrent info cs (String.intercalate " " (parasUntilHeading rest))))
    ∧ (∀ p1 p2 : String,
        (scrape_destination_info
            (some [Node.heading "Eat", Node.para p1, Node.heading ht, Node.para p2])).bind
          (fun i => alookup i "food") = some (p1 ++ p2)) := by
  constructor
  · intro rest cs info
    simp only [scanHeadings, hm]
  · intro p1 p2
    simp only [scrape_destination_info, Option.some_bind]
    simp only [scanHeadings, matchSection_eat, hm, parasUntilHeading, appendCurrent,
      intercalate_one]
    rw [alookup_appendTo_self, alookup_appendTo_self,
      alookup_setVal_of_ne _ _ _ _ (by decide)]
    simp [emptyInfo, alookup, String.empty_append]

/-- Witness for C4: the unrecognized heading "History" after "Eat"
appends its paragraph to the food bucket with no separator. -/
theorem unmatched_heading_falls_through_w :
    (scrape_destination_info
        (some [Node.heading "Eat", Node.para "a", Node.heading "History", Node.para "b"])).bind
      (fun i => alookup i "food") = some ("a" ++ "b") :=
  (unmatched_heading_falls_through "History" (by decide)).2 "a" "b"

/-- Claim C5: for every container the page yields, the Extractor returns a
mapping with exactly the five keys overview, attractions,
transportation, food, tips (each value a string by the type of
`Info`). -/
theorem scrape_returns_exactly_five_keys (nodes : List Node) :
    ∃ info : Info, scrape_destination_info (some nodes) = some info ∧
      info.map Prod.fst = ["overview", "attractions", "transportation", "food", "tips"] := by
  refine ⟨_, rfl, ?_⟩
  rw [scanHeadings_keysEq, setVal_keysEq]
  rfl

/-- Claim C10: when two headings in document order map to the same section
bucket, the second heading's space-joined paragraph text is appended
directly onto the first's with no separator character between the two
accumulated runs. -/
theorem same_section_headings_concatenate_without_separator
    (h1 h2 s : String) (e1 : matchSection h1 = some s) (e2 : matchSection h2 = some s)
    (p1 p2 p3 : String) :
    (scrape_destination_info
        (some [Node.heading h1, Node.para p1, Node.para p2, Node.heading h2, Node.para p3])).bind
      (fun i => alookup i s) = some ((p1 ++ " " ++ p2) ++ p3) := by
  have hs := matchSection_mem h1 s e1
  have hso : s ≠ "overview" := by rcases hs with h | h | h | h <;> simp [h]
  simp only [scrape_destination_info, Option.some_bind]
  simp only [scanHeadings, e1, e2, parasUntilHeading, appendCurrent, intercalate_one,
    intercalate_two]
  rw [alookup_appendTo_self, alookup_appendTo_self, alookup_setVal_of_ne _ _ _ _ hso]
  have hemp : alookup emptyInfo s = some "" := by
    rcases hs with h | h | h | h <;> subst h <;> rfl
  rw [hemp]
  simp [String.empty_append]

/-- Witness for C10: "See" then "Sights" both map to `attractions`; the
two runs "a b" and "c" are concatenated as "a bc". -/
theorem same_section_headings_concatenate_without_separator_w :
    (scrape_destination_info
        (some [Node.heading "See", Node.para "a", Node.para "b", Node.heading "Sights",
          Node.para "c"])).bind
      (fun i => alookup i "attractions") = some (("a" ++ " " ++ "b") ++ "c") :=
  same_section_headings_concatenate_without_separator "See" "Sights" "attractions"
    (by decide) (by decide) "a" "b" "c"

theorem missingKeys_obj (kvs : List (String × Json)) (ks : List String) :
    missingKeys (Json.obj kvs) ks =
      some (ks.filter (fun k => !(alookup kvs k).isSome)) := by
  induction ks with
  | nil => rfl
  | cons k rest ih =>
    simp only [missingKeys, pyContains, ih, List.filter_cons]
    by_cases hb : (alookup kvs k).isSome <;> simp [hb]

/-- Claim C7: when the completion content is not valid JSON, or decodes to an
object missing one of the five required keys, `generate_guide` returns
no guide: the halting None of the pipeline, with no retry (the function
consists of this single attempt). -/
theorem generate_guide_halts_on_bad_response (decoded : Option Json)
    (h : decoded = none ∨ ∃ kvs, decoded = some (Json.obj kvs) ∧
        ∃ k ∈ requiredKeys, alookup kvs k = none) :
    generate_guide decoded = none := by
  rcases h with h | ⟨kvs, hd, k, hk, hmiss⟩
  · rw [h]; rfl
  · subst hd
    simp only [generate_guide, missingKeys_obj]
    have hkin : k ∈ requiredKeys.filter (fun k2 => !(alookup kvs k2).isSome) := by
      rw [List.mem_filter]
      exact ⟨hk, by rw [hmiss]; rfl⟩
    cases hfl : requiredKeys.filter (fun k2 => !(alookup kvs k2).isSome) with
    | nil => rw [hfl] at hkin; cases hkin
    | cons a as => rfl

/-- Witness for C7: a decoded object carrying only `overview` (so
missing `tips` among others) yields no guide. -/
theorem generate_guide_halts_on_bad_response_w :
    generate_guide (some (Json.obj [("overview", Json.str "x")])) = none :=
  generate_guide_halts_on_bad_response _
    (Or.inr ⟨_, rfl, "tips", by decide, rfl⟩)
